import Mathlib

/-!
Shallow embedding of the EPC QR code generator core (`src/lib.rs` and the
remittance-assembly step of `src/main.rs`): the `EpcQr` payment record, its
validator, its serializer, the `Amount` parser/formatter, and the builder API.
Rust `String`s are modelled as Lean `String`s; `chars().count()` is
`String.length` (Unicode code points) and `String::len` / `into_bytes` are
`String.utf8ByteSize` / `String.toUTF8`.  Machine integers `u32`/`u8` are
modelled as `Nat` with their width bounds made explicit where the code
depends on them (integer parsing).
-/

/-- Rust's `Option::is_some_and`. -/
def Option.is_some_and (o : Option α) (p : α → Bool) : Bool :=
  match o with
  | none => false
  | some a => p a

/-- `CharacterSet` from `src/lib.rs`: only `Utf8` is actually supported. -/
inductive CharacterSet
  | Utf8
  | ISO8859_01
  | ISO8859_02
  | ISO8859_04
  | ISO8859_05
  | ISO8859_07
  | ISO8859_10
  | ISO8859_15
  deriving DecidableEq

/-- `Amount` from `src/lib.rs`: `euro : u32`, `cent : u8`, as `Nat` here;
the parser (`Amount.from_str`) enforces the machine widths explicitly. -/
structure Amount where
  euro : Nat
  cent : Nat
  deriving DecidableEq

/-- `Remittance` from `src/lib.rs`. -/
inductive Remittance
  | Reference (s : String)
  | Text (s : String)
  deriving DecidableEq

/-- `Remittance::text` from `src/lib.rs`. -/
def Remittance.text : Remittance → String
  | .Reference t => t
  | .Text t => t

/-- `EpcQr` from `src/lib.rs`. -/
structure EpcQr where
  character_set : CharacterSet
  bic : Option String
  beneficiary_name : String
  beneficiary_account : String
  amount : Option Amount
  purpose : Option String
  remittance : Option Remittance
  info : Option String
  deriving DecidableEq

/-- `InvalidEpcCode` from `src/lib.rs`. -/
inductive InvalidEpcCode
  | TooLargeTotal
  | DuplicateRemittance
  | InvalidFieldLength
      (invalid_bic invalid_name invalid_iban invalid_amount
       invalid_purpose invalid_remittance invalid_info : Bool)
  deriving DecidableEq

/-- `EpcQr::MAX_LENGTH_BYTES`. -/
def EpcQr.MAX_LENGTH_BYTES : Nat := 331

/-- `EpcQr::new` from `src/lib.rs`. -/
def EpcQr.new (beneficiary_name beneficiary_account : String) : EpcQr where
  character_set := .Utf8
  bic := none
  beneficiary_name := beneficiary_name
  beneficiary_account := beneficiary_account
  amount := none
  purpose := none
  remittance := none
  info := none

/-- `EpcQr::with_bic`. -/
def EpcQr.with_bic (e : EpcQr) (bic : Option String) : EpcQr :=
  { e with bic := bic }

/-- `EpcQr::with_amount`. -/
def EpcQr.with_amount (e : EpcQr) (amount : Option Amount) : EpcQr :=
  { e with amount := amount }

/-- `EpcQr::with_purpose`. -/
def EpcQr.with_purpose (e : EpcQr) (purpose : Option String) : EpcQr :=
  { e with purpose := purpose }

/-- `EpcQr::with_remittance`. -/
def EpcQr.with_remittance (e : EpcQr) (remittance : Option Remittance) : EpcQr :=
  { e with remittance := remittance }

/-- `EpcQr::with_info`. -/
def EpcQr.with_info (e : EpcQr) (info : Option String) : EpcQr :=
  { e with info := info }

/-- `EpcQr::validate` from `src/lib.rs` (lines 221-269): each `chars().count()`
is `String.length`; `(lo..=hi).contains` is the conjunction of the two bounds. -/
def EpcQr.validate (e : EpcQr) : Except InvalidEpcCode Unit :=
  let invalid_bic := e.bic.is_some_and fun bic =>
    !(decide (bic.length = 8 ∨ bic.length = 11))
  let invalid_name :=
    !(decide (1 ≤ e.beneficiary_name.length ∧ e.beneficiary_name.length ≤ 70))
  let invalid_iban :=
    !(decide (1 ≤ e.beneficiary_account.length ∧ e.beneficiary_account.length ≤ 34))
  let invalid_amount := e.amount.is_some_and fun amount =>
    decide (999999999 < amount.euro ∨ 99 < amount.cent ∨ (amount.euro = 0 ∧ amount.cent = 0))
  let invalid_purpose := e.purpose.is_some_and fun purpose =>
    !(decide (1 ≤ purpose.length ∧ purpose.length ≤ 4))
  let invalid_remittance := e.remittance.is_some_and fun remittance =>
    match remittance with
    | .Reference reference => !(decide (1 ≤ reference.length ∧ reference.length ≤ 35))
    | .Text t => !(decide (1 ≤ t.length ∧ t.length ≤ 140))
  let invalid_info := e.info.is_some_and fun info =>
    !(decide (1 ≤ info.length ∧ info.length ≤ 70))
  if invalid_bic || invalid_name || invalid_iban || invalid_amount
      || invalid_purpose || invalid_remittance || invalid_info then
    .error (.InvalidFieldLength invalid_bic invalid_name invalid_iban invalid_amount
      invalid_purpose invalid_remittance invalid_info)
  else
    .ok ()

/-- The amount formatting expression inlined in `ToString for EpcQr`
(`src/lib.rs` lines 331-335): Rust renders the cent part with `{}` when it is a
multiple of 10 (after dividing by 10) and with `{:02}` (zero-padded to width 2)
otherwise. -/
def Amount.format (a : Amount) : String :=
  if a.cent % 10 = 0 then
    toString a.euro ++ "." ++ toString (a.cent / 10)
  else
    toString a.euro ++ "." ++ (if a.cent < 10 then "0" ++ toString a.cent else toString a.cent)

/-- `ToString for EpcQr` from `src/lib.rs` (lines 305-358), mirroring the
`push_str` sequence: each `let data := data ++ _` is one group of pushes. -/
def EpcQr.to_string (e : EpcQr) : String :=
  let version := if e.bic.isSome then "001\n" else "002\n"
  let data := "BCD\n" ++ version
  let data := data ++ "1\n"
  let data := data ++ "SCT\n"
  let data := data ++ (match e.bic with | some bic => bic | none => "") ++ "\n"
  let data := data ++ e.beneficiary_name ++ "\n"
  let data := data ++ e.beneficiary_account
  let data := data ++ (match e.amount with
    | some amount => "\n" ++ ("EUR" ++ amount.format)
    | none =>
      if e.purpose.isSome || e.remittance.isSome || e.info.isSome then "\n" else "")
  let data := data ++ (match e.purpose with
    | some purpose => "\n" ++ purpose
    | none =>
      if e.remittance.isSome || e.info.isSome then "\n" else "")
  let data := data ++ (match e.remittance with
    | some remittance => "\n" ++ remittance.text
    | none =>
      match e.info with
      | some info => "\n" ++ info
      | none => "")
  data

/-- `EpcQr::data` from `src/lib.rs` (lines 271-285).  The
`assert!(matches!(self.character_set, CharacterSet::Utf8))` panic is modelled
as the outer `Option`'s `none`; the `Vec<u8>` result is the UTF-8 byte list. -/
def EpcQr.data (e : EpcQr) : Option (Except InvalidEpcCode (List UInt8)) :=
  match e.validate with
  | .error err => some (.error err)
  | .ok () =>
    match e.character_set with
    | .Utf8 =>
      let data := e.to_string
      if data.utf8ByteSize ≤ EpcQr.MAX_LENGTH_BYTES then
        some (.ok data.toUTF8.toList)
      else
        some (.error .TooLargeTotal)
    | _ => none

/-- `InvalidAmount` from `src/lib.rs`; the payload of Rust's
`ParseIntError` is not tracked, only the constructor. -/
inductive InvalidAmount
  | OutOfRange (euro : Nat) (cent : Nat)
  | ParseIntError
  | NoSeparator
  deriving DecidableEq

/-- Rust `str::split_once('.')`: split at the first `'.'`. -/
def split_once_dot : List Char → Option (List Char × List Char)
  | [] => none
  | c :: rest =>
    if c = '.' then some ([], rest)
    else (split_once_dot rest).map fun p => (c :: p.1, p.2)

/-- Numeric value of a digit string. -/
def digitsVal (l : List Char) : Nat :=
  l.foldl (fun acc c => acc * 10 + (c.toNat - 48)) 0

/-- Rust's `FromStr` for an unsigned machine integer of upper bound `bound`
(`2 ^ 32` for `u32`, `2 ^ 8` for `u8`): an optional leading `'+'`, then a
non-empty digit string whose value fits below the bound; anything else is a
`ParseIntError` (`none`). -/
def parse_uint (bound : Nat) (s : List Char) : Option Nat :=
  let digits := match s with
    | '+' :: rest => rest
    | other => other
  if digits = [] then none
  else if digits.all Char.isDigit then
    let v := digitsVal digits
    if v < bound then some v else none
  else none

/-- `FromStr for Amount` from `src/lib.rs` (lines 400-412). -/
def Amount.from_str (s : String) : Except InvalidAmount Amount :=
  match split_once_dot s.data with
  | none => .error .NoSeparator
  | some (euroStr, centStr) =>
    match parse_uint (2 ^ 32) euroStr with
    | none => .error .ParseIntError
    | some euro =>
      match parse_uint (2 ^ 8) centStr with
      | none => .error .ParseIntError
      | some cent =>
        if 999999999 < euro ∨ 99 < cent ∨ (euro = 0 ∧ cent = 0) then
          .error (.OutOfRange euro cent)
        else
          .ok ⟨euro, cent⟩

/-- The remittance-assembly step of `main` in `src/main.rs` (lines 29-38):
from the two raw CLI inputs, before any `EpcQr` is built or validated. -/
def buildRemittance (remittance_reference remittance_text : Option String) :
    Except InvalidEpcCode (Option Remittance) :=
  match remittance_reference, remittance_text with
  | none, some t => .ok (some (.Text t))
  | some reference, none => .ok (some (.Reference reference))
  | none, none => .ok none
  | some _, some _ => .error .DuplicateRemittance

/-- One builder call of the public `EpcQr` API. -/
inductive BuilderOp
  | SetBic (b : Option String)
  | SetAmount (a : Option Amount)
  | SetPurpose (p : Option String)
  | SetRemittance (m : Option Remittance)
  | SetInfo (i : Option String)

/-- Apply one builder call. -/
def applyOp (e : EpcQr) : BuilderOp → EpcQr
  | .SetBic b => e.with_bic b
  | .SetAmount a => e.with_amount a
  | .SetPurpose p => e.with_purpose p
  | .SetRemittance m => e.with_remittance m
  | .SetInfo i => e.with_info i

/-- A record built through the public API: `EpcQr::new` followed by any
sequence of `with_*` calls. -/
def buildRecord (name account : String) (ops : List BuilderOp) : EpcQr :=
  ops.foldl applyOp (EpcQr.new name account)

/-! Helper notions used by the theorems: newline-splitting (the spec's
"lines" of the payload) and pointwise string equality via the char list. -/

/-- Split a character list at every newline character. -/
def splitNl : List Char → List (List Char)
  | [] => [[]]
  | c :: rest =>
    if c = '\n' then [] :: splitNl rest
    else
      match splitNl rest with
      | h :: t => (c :: h) :: t
      | [] => [[c]]

/-- The newline-separated lines of a string. -/
def lines (s : String) : List String :=
  (splitNl s.data).map String.mk

theorem data_append (a b : String) : (a ++ b).data = a.data ++ b.data := rfl

theorem data_empty : ("" : String).data = [] := rfl

theorem string_eq_of_data {a b : String} (h : a.data = b.data) : a = b := by
  cases a with
  | mk la => cases b with
    | mk lb => exact congrArg String.mk h

/-- C1: the spec claims lines 8-11 (amount, purpose, remittance, info) are each
emitted when the field or any later field is present, with remittance on line 10
and info on line 11.  The code violates this: for a record that passes
validation with both remittance and info present, `to_string` emits only 10
lines, with remittance on line 10 and the info field dropped entirely; and for
a record whose only optional field is info, it emits 10 lines with info on line
10 (the remittance slot), not 11 lines with info on line 11. -/
theorem c1_remittance_info_lines :
    ((((EpcQr.new "A" "B").with_remittance (some (.Text "R"))).with_info (some "I")).validate
        = .ok ()) ∧
    ((((EpcQr.new "A" "B").with_remittance (some (.Text "R"))).with_info (some "I")).to_string
        = "BCD\n002\n1\nSCT\n\nA\nB\n\n\nR") ∧
    (lines (((EpcQr.new "A" "B").with_remittance (some (.Text "R"))).with_info
        (some "I")).to_string
        = ["BCD", "002", "1", "SCT", "", "A", "B", "", "", "R"]) ∧
    (((EpcQr.new "A" "B").with_info (some "I")).validate = .ok ()) ∧
    (lines ((EpcQr.new "A" "B").with_info (some "I")).to_string
        = ["BCD", "002", "1", "SCT", "", "A", "B", "", "", "I"]) :=
  ⟨rfl, rfl, rfl, rfl, rfl⟩

/-- C2 counterexample: the claim says parsing `"12.5"` then formatting yields
`"EUR12.5"`.  In the code, `"12.5"` parses to cent = 5, which is not a multiple
of 10, so it formats (as in the serializer's amount line) as `"EUR12.05"`,
which differs from `"EUR12.5"`. -/
theorem c2_counterexample :
    Amount.from_str "12.5" = .ok ⟨12, 5⟩ ∧
    "EUR" ++ Amount.format ⟨12, 5⟩ = "EUR12.05" ∧
    ("EUR12.05" : String) ≠ "EUR12.5" :=
  ⟨rfl, rfl, by decide⟩

/-- C2 amended: parsing `"12.5"` then formatting yields `"EUR12.05"` (the
one-digit fractional part is read as the literal cent count 5 and zero-padded),
while parsing `"12.50"` then formatting yields `"EUR12.5"` (cent 50 is a
multiple of 10 and is rendered as the single digit 5): the two inputs remain
distinguishable states through the round trip, but the renderings are exactly
swapped relative to the claim.  Both are shown on the serializer's amount
line of a full record. -/
theorem c2_round_trip_amended :
    Amount.from_str "12.5" = .ok ⟨12, 5⟩ ∧
    ((EpcQr.new "A" "B").with_amount (some ⟨12, 5⟩)).to_string
      = "BCD\n002\n1\nSCT\n\nA\nB\nEUR12.05" ∧
    Amount.from_str "12.50" = .ok ⟨12, 50⟩ ∧
    ((EpcQr.new "A" "B").with_amount (some ⟨12, 50⟩)).to_string
      = "BCD\n002\n1\nSCT\n\nA\nB\nEUR12.5" :=
  ⟨rfl, rfl, rfl, rfl⟩

/-- C5: a record whose only populated fields are the beneficiary name and
account (bic, amount, purpose, remittance, info all absent) serializes to the
five header lines followed by name and account, with no trailing blank lines;
for name `"Jane Doe"` and account `"DE02120300000000202051"` the payload is
exactly the 7-line text `"BCD\n002\n1\nSCT\n\nJane Doe\nDE02120300000000202051"`
with no trailing newline. -/
theorem c5_seven_lines (r : EpcQr) (hb : r.bic = none) (ha : r.amount = none)
    (hp : r.purpose = none) (hm : r.remittance = none) (hi : r.info = none) :
    r.to_string = "BCD\n002\n1\nSCT\n\n" ++ r.beneficiary_name ++ "\n" ++ r.beneficiary_account ∧
    (EpcQr.new "Jane Doe" "DE02120300000000202051").to_string
      = "BCD\n002\n1\nSCT\n\nJane Doe\nDE02120300000000202051" ∧
    lines (EpcQr.new "Jane Doe" "DE02120300000000202051").to_string
      = ["BCD", "002", "1", "SCT", "", "Jane Doe", "DE02120300000000202051"] ∧
    (EpcQr.new "Jane Doe" "DE02120300000000202051").to_string.data.getLast? ≠ some '\n' := by
  refine ⟨?_, rfl, rfl, by decide⟩
  simp only [EpcQr.to_string, hb, ha, hp, hm, hi]
  apply string_eq_of_data
  simp only [data_append, data_empty, List.append_assoc, List.append_nil, List.nil_append,
    Option.isSome_none, Bool.or_self, Bool.false_eq_true, if_false]
  rfl

/-- C5 witness: the general part of `c5_seven_lines` applied to the concrete
Jane Doe record. -/
theorem c5_witness :
    (EpcQr.new "Jane Doe" "DE02120300000000202051").to_string
      = "BCD\n002\n1\nSCT\n\n" ++ "Jane Doe" ++ "\n" ++ "DE02120300000000202051" :=
  (c5_seven_lines (EpcQr.new "Jane Doe" "DE02120300000000202051") rfl rfl rfl rfl rfl).1

/-- C9: assembling the remittance input from the two raw CLI options (as `main`
does, before the record is built and before the validator can run) fails with
`DuplicateRemittance` exactly when both a structured reference and free text
are supplied; otherwise it builds the corresponding variant (or none) and no
`DuplicateRemittance` occurs. -/
theorem c9_remittance_assembly :
    (∀ reference t, buildRemittance (some reference) (some t)
        = .error InvalidEpcCode.DuplicateRemittance) ∧
    (∀ t, buildRemittance none (some t) = .ok (some (Remittance.Text t))) ∧
    (∀ reference, buildRemittance (some reference) none
        = .ok (some (Remittance.Reference reference))) ∧
    buildRemittance none none = .ok none :=
  ⟨fun _ _ => rfl, fun _ => rfl, fun _ => rfl, rfl⟩

/-- C3: `validate` returns `Ok` exactly when all seven field rules hold (all
counts are Unicode code points); when any rule fails it returns a single
`InvalidFieldLength` error (never any other error constructor) whose per-field
flags are set exactly for the violated rules. -/
theorem c3_validate_characterization (r : EpcQr) :
    (r.validate = .ok () ↔
      ((∀ s, r.bic = some s → (s.length = 8 ∨ s.length = 11)) ∧
       (1 ≤ r.beneficiary_name.length ∧ r.beneficiary_name.length ≤ 70) ∧
       (1 ≤ r.beneficiary_account.length ∧ r.beneficiary_account.length ≤ 34) ∧
       (∀ x, r.amount = some x →
          (x.euro ≤ 999999999 ∧ x.cent ≤ 99 ∧ ¬(x.euro = 0 ∧ x.cent = 0))) ∧
       (∀ x, r.purpose = some x → (1 ≤ x.length ∧ x.length ≤ 4)) ∧
       (∀ x, r.remittance = some x →
          (match x with
           | Remittance.Reference s => 1 ≤ s.length ∧ s.length ≤ 35
           | Remittance.Text s => 1 ≤ s.length ∧ s.length ≤ 140)) ∧
       (∀ x, r.info = some x → (1 ≤ x.length ∧ x.length ≤ 70)))) ∧
    (∀ b n i a p m f,
      r.validate = .error (.InvalidFieldLength b n i a p m f) →
        ((b = true ↔ ¬ (∀ s, r.bic = some s → (s.length = 8 ∨ s.length = 11))) ∧
         (n = true ↔ ¬ (1 ≤ r.beneficiary_name.length ∧ r.beneficiary_name.length ≤ 70)) ∧
         (i = true ↔ ¬ (1 ≤ r.beneficiary_account.length ∧ r.beneficiary_account.length ≤ 34)) ∧
         (a = true ↔ ¬ (∀ x, r.amount = some x →
            (x.euro ≤ 999999999 ∧ x.cent ≤ 99 ∧ ¬(x.euro = 0 ∧ x.cent = 0)))) ∧
         (p = true ↔ ¬ (∀ x, r.purpose = some x → (1 ≤ x.length ∧ x.length ≤ 4))) ∧
         (m = true ↔ ¬ (∀ x, r.remittance = some x →
            (match x with
             | Remittance.Reference s => 1 ≤ s.length ∧ s.length ≤ 35
             | Remittance.Text s => 1 ≤ s.length ∧ s.length ≤ 140))) ∧
         (f = true ↔ ¬ (∀ x, r.info = some x → (1 ≤ x.length ∧ x.length ≤ 70))))) ∧
    (∀ e, r.validate = .error e → ∃ b n i a p m f, e = .InvalidFieldLength b n i a p m f) := by
  have hbic : (r.bic.is_some_and fun bic => !(decide (bic.length = 8 ∨ bic.length = 11))) = true
      ↔ ¬ (∀ s, r.bic = some s → (s.length = 8 ∨ s.length = 11)) := by
    cases hb : r.bic <;> simp [Option.is_some_and, hb]
  have hname : (!(decide (1 ≤ r.beneficiary_name.length ∧ r.beneficiary_name.length ≤ 70))) = true
      ↔ ¬ (1 ≤ r.beneficiary_name.length ∧ r.beneficiary_name.length ≤ 70) := by
    simp <;> omega
  have hiban : (!(decide (1 ≤ r.beneficiary_account.length
        ∧ r.beneficiary_account.length ≤ 34))) = true
      ↔ ¬ (1 ≤ r.beneficiary_account.length ∧ r.beneficiary_account.length ≤ 34) := by
    simp <;> omega
  have hamount : (r.amount.is_some_and fun x =>
        decide (999999999 < x.euro ∨ 99 < x.cent ∨ (x.euro = 0 ∧ x.cent = 0))) = true
      ↔ ¬ (∀ x, r.amount = some x →
        (x.euro ≤ 999999999 ∧ x.cent ≤ 99 ∧ ¬(x.euro = 0 ∧ x.cent = 0))) := by
    cases hb : r.amount <;> simp [Option.is_some_and, hb] <;> omega
  have hpurpose : (r.purpose.is_some_and fun x => !(decide (1 ≤ x.length ∧ x.length ≤ 4))) = true
      ↔ ¬ (∀ x, r.purpose = some x → (1 ≤ x.length ∧ x.length ≤ 4)) := by
    cases hb : r.purpose <;> simp [Option.is_some_and, hb] <;> omega
  have hrem : (r.remittance.is_some_and fun x =>
        match x with
        | Remittance.Reference s => !(decide (1 ≤ s.length ∧ s.length ≤ 35))
        | Remittance.Text s => !(decide (1 ≤ s.length ∧ s.length ≤ 140))) = true
      ↔ ¬ (∀ x, r.remittance = some x →
        (match x with
         | Remittance.Reference s => 1 ≤ s.length ∧ s.length ≤ 35
         | Remittance.Text s => 1 ≤ s.length ∧ s.length ≤ 140)) := by
    cases hb : r.remittance with
    | none => simp [Option.is_some_and, hb]
    | some x => cases x <;> simp [Option.is_some_and, hb] <;> omega
  have hinfo : (r.info.is_some_and fun x => !(decide (1 ≤ x.length ∧ x.length ≤ 70))) = true
      ↔ ¬ (∀ x, r.info = some x → (1 ≤ x.length ∧ x.length ≤ 70)) := by
    cases hb : r.info <;> simp [Option.is_some_and, hb] <;> omega
  rw [EpcQr.validate]
  split
  case isTrue hcond =>
    rw [Bool.or_eq_true, Bool.or_eq_true, Bool.or_eq_true, Bool.or_eq_true, Bool.or_eq_true,
      Bool.or_eq_true] at hcond
    refine ⟨?_, ?_, ?_⟩
    · constructor
      · intro h; exact absurd h (by simp)
      · intro hrules
        exfalso
        rcases hcond with ((((((h | h) | h) | h) | h) | h) | h)
        · exact (hbic.mp h) hrules.1
        · exact (hname.mp h) hrules.2.1
        · exact (hiban.mp h) hrules.2.2.1
        · exact (hamount.mp h) hrules.2.2.2.1
        · exact (hpurpose.mp h) hrules.2.2.2.2.1
        · exact (hrem.mp h) hrules.2.2.2.2.2.1
        · exact (hinfo.mp h) hrules.2.2.2.2.2.2
    · intro b n i a p m f heq
      injection heq with heq
      injection heq with h1 h2 h3 h4 h5 h6 h7
      subst h1; subst h2; subst h3; subst h4; subst h5; subst h6; subst h7
      exact ⟨hbic, hname, hiban, hamount, hpurpose, hrem, hinfo⟩
    · intro e heq
      injection heq with heq
      exact ⟨_, _, _, _, _, _, _, heq.symm⟩
  case isFalse hcond =>
    rw [Bool.or_eq_true, Bool.or_eq_true, Bool.or_eq_true, Bool.or_eq_true, Bool.or_eq_true,
      Bool.or_eq_true] at hcond
    push_neg at hcond
    obtain ⟨⟨⟨⟨⟨⟨h1, h2⟩, h3⟩, h4⟩, h5⟩, h6⟩, h7⟩ := hcond
    refine ⟨?_, ?_, ?_⟩
    · exact iff_of_true rfl ⟨not_not.mp (mt hbic.mpr h1), not_not.mp (mt hname.mpr h2),
        not_not.mp (mt hiban.mpr h3), not_not.mp (mt hamount.mpr h4),
        not_not.mp (mt hpurpose.mpr h5), not_not.mp (mt hrem.mpr h6),
        not_not.mp (mt hinfo.mpr h7)⟩
    · intro b n i a p m f heq
      exact absurd heq (by simp)
    · intro e heq
      exact absurd heq (by simp)

/-- C3 witness: a fully valid record validates to `Ok` (via the iff of
`c3_validate_characterization`), and on a record with an empty beneficiary
name, the error's name flag is set (via the flag part, with its hypothesis
discharged by evaluation). -/
theorem c3_witness :
    (EpcQr.new "A" "B").validate = Except.ok () ∧
    (true = true ↔ ¬ (1 ≤ (EpcQr.new "" "B").beneficiary_name.length ∧
        (EpcQr.new "" "B").beneficiary_name.length ≤ 70)) :=
  ⟨(c3_validate_characterization (EpcQr.new "A" "B")).1.mpr
      ⟨by simp [EpcQr.new], by decide, by decide, by simp [EpcQr.new], by simp [EpcQr.new],
       by simp [EpcQr.new], by simp [EpcQr.new]⟩,
   ((c3_validate_characterization (EpcQr.new "" "B")).2.1 false true false false false false
      false rfl).2.1⟩

/-- A beneficiary name of 70 euro-sign characters: within the 70-character
field limit, but 210 UTF-8 bytes. -/
def euroSeventy : String := String.mk (List.replicate 70 '€')

set_option maxRecDepth 100000 in
/-- C4: serialization to bytes first runs the validator and propagates its
error unchanged; on success it fails with `TooLargeTotal` exactly when the
UTF-8 byte length of the payload exceeds 331, returning the bytes otherwise.
In particular the concrete record whose name and info are each 70 euro-sign
characters passes every per-field character-count check yet fails with
`TooLargeTotal` because of its multi-byte content. -/
theorem c4_data_pipeline (r : EpcQr) (h : r.character_set = CharacterSet.Utf8) :
    (∀ err, r.validate = .error err → r.data = some (.error err)) ∧
    (r.validate = .ok () →
      (r.to_string.utf8ByteSize ≤ 331 → r.data = some (.ok r.to_string.toUTF8.toList)) ∧
      (331 < r.to_string.utf8ByteSize → r.data = some (.error .TooLargeTotal))) ∧
    euroSeventy.length = 70 ∧
    ((EpcQr.new euroSeventy "DE02120300000000202051").with_info (some euroSeventy)).validate
      = .ok () ∧
    331 < ((EpcQr.new euroSeventy "DE02120300000000202051").with_info
      (some euroSeventy)).to_string.utf8ByteSize ∧
    ((EpcQr.new euroSeventy "DE02120300000000202051").with_info (some euroSeventy)).data
      = some (.error .TooLargeTotal) := by
  refine ⟨?_, ?_, by decide, rfl, by decide, rfl⟩
  · intro err herr
    simp only [EpcQr.data, herr]
  · intro hok
    constructor
    · intro hsize
      simp only [EpcQr.data, hok, h, EpcQr.MAX_LENGTH_BYTES]
      rw [if_pos hsize]
    · intro hsize
      simp only [EpcQr.data, hok, h, EpcQr.MAX_LENGTH_BYTES]
      rw [if_neg (by omega)]

/-- C4 witness: `c4_data_pipeline` applied to a small valid record, with the
character-set and size hypotheses discharged by evaluation. -/
theorem c4_witness :
    (EpcQr.new "A" "B").data = some (.ok ((EpcQr.new "A" "B").to_string.toUTF8.toList)) :=
  ((c4_data_pipeline (EpcQr.new "A" "B") rfl).2.1 rfl).1 (by decide)

/-- Splitting at the first dot finds nothing exactly when no dot occurs. -/
theorem split_once_dot_eq_none (l : List Char) : split_once_dot l = none ↔ '.' ∉ l := by
  induction l with
  | nil => simp [split_once_dot]
  | cons c rest ih =>
    by_cases hc : c = '.'
    · subst hc; simp [split_once_dot]
    · simp [split_once_dot, hc, ih, Ne.symm hc]

/-- C6 counterexample: the claim says any input whose cent side is a valid
non-negative integer greater than 99 fails with `OutOfRange`.  But the code
parses the cent side as a `u8`, so for `"1.999"` (cent side 999, a valid
non-negative integer exceeding 99) it fails with `ParseIntError` instead. -/
theorem c6_counterexample :
    Amount.from_str "1.999" = .error .ParseIntError ∧
    InvalidAmount.ParseIntError ≠ InvalidAmount.OutOfRange 1 999 ∧
    (99 : Nat) < 999 :=
  ⟨rfl, by decide, by decide⟩

/-- C6 amended: parsing fails with `NoSeparator` exactly when the input has no
dot; with a parse error when either side is not a valid non-negative integer
fitting its machine width (`u32` for euro, `u8` for cent); with `OutOfRange`
when both sides parse within width but euro > 999999999, cent > 99, or both
are zero (so `"0.00"` and `"1000000000.00"` fail with `OutOfRange`); and any
other such input parses into `(euro, cent)`. -/
theorem c6_amount_parse (s : String) :
    (split_once_dot s.data = none ↔ '.' ∉ s.data) ∧
    (split_once_dot s.data = none → Amount.from_str s = .error .NoSeparator) ∧
    (∀ es cs, split_once_dot s.data = some (es, cs) →
      ((parse_uint (2 ^ 32) es = none ∨ parse_uint (2 ^ 8) cs = none) →
         Amount.from_str s = .error .ParseIntError) ∧
      (∀ eu ce, parse_uint (2 ^ 32) es = some eu → parse_uint (2 ^ 8) cs = some ce →
        ((999999999 < eu ∨ 99 < ce ∨ (eu = 0 ∧ ce = 0)) →
           Amount.from_str s = .error (.OutOfRange eu ce)) ∧
        (eu ≤ 999999999 → ce ≤ 99 → ¬(eu = 0 ∧ ce = 0) →
           Amount.from_str s = .ok ⟨eu, ce⟩))) ∧
    Amount.from_str "0.00" = .error (.OutOfRange 0 0) ∧
    Amount.from_str "1000000000.00" = .error (.OutOfRange 1000000000 0) := by
  refine ⟨split_once_dot_eq_none s.data, ?_, ?_, rfl, rfl⟩
  · intro hnone
    simp only [Amount.from_str, hnone]
  · intro es cs hsplit
    constructor
    · intro hbad
      rcases hbad with hbad | hbad
      · simp only [Amount.from_str, hsplit, hbad]
      · simp only [Amount.from_str, hsplit, hbad]
        cases parse_uint (2 ^ 32) es <;> rfl
    · intro eu ce heu hce
      constructor
      · intro hrange
        simp only [Amount.from_str, hsplit, heu, hce]
        rw [if_pos hrange]
      · intro h1 h2 h3
        simp only [Amount.from_str, hsplit, heu, hce]
        rw [if_neg (by omega)]

/-- C6 witness: `c6_amount_parse` applied to `"12.34"`, with the split and
parse hypotheses discharged by evaluation. -/
theorem c6_witness : Amount.from_str "12.34" = .ok ⟨12, 34⟩ :=
  ((((c6_amount_parse "12.34").2.2.1 ['1', '2'] ['3', '4'] rfl).2 12 34 rfl rfl).2
    (by decide) (by decide) (by decide))

/-- C7: whenever an amount is present, the serialized payload consists of the
seven header lines, a newline, and then the amount line `EUR<euro>.<cent>`,
where the cent part is the single digit `cent / 10` if cent is an exact
multiple of 10 and the cent value zero-padded to two digits otherwise; shown
concretely on the amount line (line 8) for cents 50, 5 and 7. -/
theorem c7_amount_line (r : EpcQr) (a : Amount) (h : r.amount = some a) :
    (∃ q, r.to_string
        = "BCD\n" ++ (if r.bic.isSome then "001" else "002") ++ "\n" ++ "1\n" ++ "SCT\n"
          ++ (match r.bic with | some bic => bic | none => "") ++ "\n"
          ++ r.beneficiary_name ++ "\n" ++ r.beneficiary_account ++ "\n"
          ++ ("EUR" ++ (if a.cent % 10 = 0
                then toString a.euro ++ "." ++ toString (a.cent / 10)
                else toString a.euro ++ "." ++
                  (if a.cent < 10 then "0" ++ toString a.cent else toString a.cent)))
          ++ q) ∧
    lines ((EpcQr.new "A" "B").with_amount (some ⟨12, 50⟩)).to_string
      = ["BCD", "002", "1", "SCT", "", "A", "B", "EUR12.5"] ∧
    lines ((EpcQr.new "A" "B").with_amount (some ⟨12, 5⟩)).to_string
      = ["BCD", "002", "1", "SCT", "", "A", "B", "EUR12.05"] ∧
    lines ((EpcQr.new "A" "B").with_amount (some ⟨3, 7⟩)).to_string
      = ["BCD", "002", "1", "SCT", "", "A", "B", "EUR3.07"] := by
  refine ⟨?_, rfl, rfl, rfl⟩
  refine ⟨(match r.purpose with
      | some purpose => "\n" ++ purpose
      | none => if r.remittance.isSome || r.info.isSome then "\n" else "")
    ++ (match r.remittance with
      | some remittance => "\n" ++ remittance.text
      | none => match r.info with
        | some info => "\n" ++ info
        | none => ""), ?_⟩
  cases hb : r.bic with
  | none =>
    simp only [EpcQr.to_string, hb, h, Amount.format, Option.isSome_none, Bool.false_eq_true,
      if_false]
    apply string_eq_of_data
    simp only [data_append, data_empty, List.append_assoc, List.append_nil, List.nil_append]
    rfl
  | some b =>
    simp only [EpcQr.to_string, hb, h, Amount.format, Option.isSome_some, if_true]
    apply string_eq_of_data
    simp only [data_append, data_empty, List.append_assoc, List.append_nil, List.nil_append]
    rfl

/-- C7 witness: `c7_amount_line` applied to a concrete record with amount
`(12, 50)`, its presence hypothesis discharged by `rfl`. -/
theorem c7_witness :
    lines ((EpcQr.new "A" "B").with_amount (some ⟨12, 50⟩)).to_string
      = ["BCD", "002", "1", "SCT", "", "A", "B", "EUR12.5"] :=
  (c7_amount_line ((EpcQr.new "A" "B").with_amount (some ⟨12, 50⟩)) ⟨12, 50⟩ rfl).2.1

/-- C8: for every record the payload starts with `BCD`, then the version line
(`001` when bic is present, `002` when absent), then `1`, then `SCT`, then the
bic line (the bic value or empty); shown concretely as lines 2 and 5 of the
split payload with and without a bic. -/
theorem c8_version_and_bic_line (r : EpcQr) :
    (∃ rest, r.to_string
        = "BCD\n" ++ (if r.bic.isSome then "001" else "002") ++ "\n" ++ "1\n" ++ "SCT\n"
          ++ (match r.bic with | some bic => bic | none => "") ++ "\n" ++ rest) ∧
    lines ((EpcQr.new "A" "B").with_bic (some "DEUTDEFF")).to_string
      = ["BCD", "001", "1", "SCT", "DEUTDEFF", "A", "B"] ∧
    lines (EpcQr.new "A" "B").to_string
      = ["BCD", "002", "1", "SCT", "", "A", "B"] := by
  refine ⟨?_, rfl, rfl⟩
  refine ⟨r.beneficiary_name ++ "\n" ++ r.beneficiary_account
      ++ (match r.amount with
          | some amount => "\n" ++ ("EUR" ++ amount.format)
          | none =>
            if r.purpose.isSome || r.remittance.isSome || r.info.isSome then "\n" else "")
      ++ (match r.purpose with
          | some purpose => "\n" ++ purpose
          | none => if r.remittance.isSome || r.info.isSome then "\n" else "")
      ++ (match r.remittance with
          | some remittance => "\n" ++ remittance.text
          | none => match r.info with
            | some info => "\n" ++ info
            | none => ""), ?_⟩
  cases hb : r.bic with
  | none =>
    simp only [EpcQr.to_string, hb, Option.isSome_none, Bool.false_eq_true, if_false]
    apply string_eq_of_data
    simp only [data_append, data_empty, List.append_assoc, List.append_nil, List.nil_append]
    rfl
  | some b =>
    simp only [EpcQr.to_string, hb, Option.isSome_some, if_true]
    apply string_eq_of_data
    simp only [data_append, data_empty, List.append_assoc, List.append_nil, List.nil_append]
    rfl

/-- Each builder call leaves the character set unchanged. -/
theorem applyOp_character_set (e : EpcQr) (op : BuilderOp) :
    (applyOp e op).character_set = e.character_set := by
  cases op <;> rfl

/-- On any record whose character set is `Utf8`, `data` never reaches the
assertion-panic branch (the model's `none`). -/
theorem data_ne_none_of_utf8 (r : EpcQr) (h : r.character_set = CharacterSet.Utf8) :
    r.data ≠ none := by
  rw [EpcQr.data]
  cases hv : r.validate with
  | error err => simp
  | ok u => cases u; rw [h]; dsimp only; split <;> simp

/-- C10: every record built through the public API (`new` followed by any
sequence of `with_*` calls) has character set `Utf8`, so the internal
assertion in `data` (modelled as `none`) can never fire on it. -/
theorem c10_public_api_utf8 (name account : String) (ops : List BuilderOp) :
    (buildRecord name account ops).character_set = CharacterSet.Utf8 ∧
    (buildRecord name account ops).data ≠ none := by
  have hfold : ∀ (l : List BuilderOp) (e : EpcQr),
      (l.foldl applyOp e).character_set = e.character_set := by
    intro l
    induction l with
    | nil => intro e; rfl
    | cons op rest ih =>
      intro e
      rw [List.foldl_cons, ih, applyOp_character_set]
  have hcs : (buildRecord name account ops).character_set = CharacterSet.Utf8 := by
    rw [buildRecord, hfold]
    rfl
  exact ⟨hcs, data_ne_none_of_utf8 _ hcs⟩

/-- C8 witness: `c8_version_and_bic_line` applied to the concrete record with
a bic. -/
theorem c8_witness :
    lines ((EpcQr.new "A" "B").with_bic (some "DEUTDEFF")).to_string
      = ["BCD", "001", "1", "SCT", "DEUTDEFF", "A", "B"] :=
  (c8_version_and_bic_line ((EpcQr.new "A" "B").with_bic (some "DEUTDEFF"))).2.1

/-- C9 witness: `c9_remittance_assembly` applied to concrete raw inputs. -/
theorem c9_witness :
    buildRemittance (some "RF18539007547034") (some "client ref 1")
      = .error InvalidEpcCode.DuplicateRemittance :=
  c9_remittance_assembly.1 "RF18539007547034" "client ref 1"

/-- C10 witness: `c10_public_api_utf8` applied to a concrete builder-call
sequence. -/
theorem c10_witness :
    (buildRecord "A" "B" [BuilderOp.SetBic (some "DEUTDEFF"),
      BuilderOp.SetInfo (some "I")]).character_set = CharacterSet.Utf8 :=
  (c10_public_api_utf8 "A" "B" [BuilderOp.SetBic (some "DEUTDEFF"),
    BuilderOp.SetInfo (some "I")]).1
